import Mathlib

/-!
Verification of the Heart_Guard inference pipeline against its
specification.  The development is a shallow embedding of
`ml_service/predict.py`: Python floats are modelled as real numbers,
the input dictionary of clinical fields as an association list, and the
effectful surroundings (artifact files on disk, offline model training)
as explicit outcome parameters threaded through the functions that the
Python code performs those effects in.
-/

set_option maxHeartbeats 1000000

namespace HeartGuard

/-- A value arriving in a field of the input record: either a value that
Python `float(...)` accepts, or a non-coercible value (carrying the text
that appears in the raised `ValueError`). -/
inductive PyValue where
  | num (x : ℝ)
  | badStr (s : String)

/-- The input record, the Python dictionary parsed from the JSON CLI
argument: field names mapped to values. -/
abbrev ClinicalRecord := List (String × PyValue)

/-- Dictionary lookup, modelling `feature in data` / `data[feature]`. -/
def lookupField : ClinicalRecord → String → Option PyValue
  | [], _ => none
  | (k, v) :: rest, f => if k = f then some v else lookupField rest f

/-- `float(value)`: succeeds on numeric values, raises `ValueError` on
non-coercible ones. -/
def coerceFloat : PyValue → Except String ℝ
  | .num x => .ok x
  | .badStr s => .error ("could not convert string to float " ++ s)

/-- The fixed field order used by `preprocess_input`
(`required_features` in the source). -/
def requiredFeatures : List String :=
  ["age", "sex", "cp", "trestbps", "chol", "fbs", "restecg",
   "thalach", "exang", "oldpeak", "slope", "ca", "thal"]

/-- The per-field default dictionary used by `preprocess_input` for
missing fields (`defaults` in the source). -/
def defaults : String → ℝ
  | "age" => 50
  | "sex" => 0
  | "cp" => 0
  | "trestbps" => 120
  | "chol" => 200
  | "fbs" => 0
  | "restecg" => 0
  | "thalach" => 150
  | "exang" => 0
  | "oldpeak" => 0
  | "slope" => 0
  | "ca" => 0
  | "thal" => 0
  | _ => 0

/-- One loop iteration of `preprocess_input`: coerce the field if present
in the record, otherwise take its default. -/
def featureValue (data : ClinicalRecord) (f : String) : Except String ℝ :=
  match lookupField data f with
  | some v => coerceFloat v
  | none => .ok (defaults f)

/-- The feature-building loop of `preprocess_input`; a coercion failure
raises out of the loop immediately, so the first failing field wins. -/
def buildFeatures (data : ClinicalRecord) : List String → Except String (List ℝ)
  | [] => .ok []
  | f :: fs =>
    match featureValue data f with
    | .error e => .error e
    | .ok x =>
      match buildFeatures data fs with
      | .error e => .error e
      | .ok xs => .ok (x :: xs)

/-- `preprocess_input`: build the 13 features in the fixed order.  The
trailing `np.array(...).reshape(1, -1)` is performed at the use site in
`predict_heart_disease`. -/
def preprocess_input (data : ClinicalRecord) : Except String (List ℝ) :=
  buildFeatures data requiredFeatures

/-- The capability surface of a loaded classifier artifact: `predict`,
`predict_proba` (rows of class-0/class-1 probabilities) and whether the
object has an `estimators_` attribute (true for trained sklearn
ensembles, false for the fallback model). -/
structure Classifier where
  predict : List (Fin 13 → ℝ) → List ℤ
  predictProba : List (Fin 13 → ℝ) → List (ℝ × ℝ)
  hasEstimators : Bool

/-- The capability surface of a loaded scaler artifact. -/
structure Scaler where
  transform : List (Fin 13 → ℝ) → List (Fin 13 → ℝ)

/-- The rule-based risk score accumulated in
`FallbackModel.predict_proba`. -/
noncomputable def riskScore (features : Fin 13 → ℝ) : ℝ :=
  (if features 0 > 60 then 0.2 else 0) +
  (if features 1 = 1 then 0.1 else 0) +
  (if features 2 > 1 then 0.3 else 0) +
  (if features 3 > 140 then 0.2 else 0) +
  (if features 4 > 250 then 0.2 else 0) +
  (if features 7 < 120 then 0.2 else 0)

/-- `FallbackModel.predict_proba`: for each row, probability pair
`[1 - prob, prob]` with `prob = min(risk_score, 0.9)`. -/
noncomputable def FallbackModel.predict_proba (X : List (Fin 13 → ℝ)) : List (ℝ × ℝ) :=
  X.map (fun features =>
    (1 - min (riskScore features) 0.9, min (riskScore features) 0.9))

/-- `FallbackModel.predict`: threshold the positive-class column of
`predict_proba` at strictly greater than 0.5. -/
noncomputable def FallbackModel.predict (X : List (Fin 13 → ℝ)) : List ℤ :=
  (FallbackModel.predict_proba X).map (fun pr => if pr.2 > 0.5 then 1 else 0)

/-- Per-column mean of the input batch (`np.mean(X, axis=0)`). -/
noncomputable def colMean (X : List (Fin 13 → ℝ)) (j : Fin 13) : ℝ :=
  (X.map (fun r => r j)).sum / (X.length : ℝ)

/-- Per-column population standard deviation of the input batch
(`np.std(X, axis=0)`). -/
noncomputable def colStd (X : List (Fin 13 → ℝ)) (j : Fin 13) : ℝ :=
  Real.sqrt ((X.map (fun r => (r j - colMean X j) ^ 2)).sum / (X.length : ℝ))

/-- `FallbackScaler.transform`: normalise each column against the mean
and standard deviation of the input batch itself,
`(X - np.mean(X, axis=0)) / (np.std(X, axis=0) + 1e-8)`. -/
noncomputable def FallbackScaler.transform (X : List (Fin 13 → ℝ)) : List (Fin 13 → ℝ) :=
  X.map (fun row j => (row j - colMean X j) / (colStd X j + 1e-8))

/-- `create_fallback_model`: the rule-based classifier/scaler pair. -/
noncomputable def create_fallback_model : Classifier × Scaler :=
  (⟨FallbackModel.predict, FallbackModel.predict_proba, false⟩,
   ⟨FallbackScaler.transform⟩)

/-- The state of one artifact file on disk: missing (`FileNotFoundError`
on open), present but failing to unpickle (the carried message is the
exception text), or present with a deserialisable payload. -/
inductive FileOutcome (α : Type) where
  | absent
  | corrupt (msg : String)
  | present (content : α)

/-- The effectful surroundings of one invocation: the two artifact files
and the outcome that `train_new_model`'s sklearn training run would have
(`Except.error` when training, or persisting the trained model, raises). -/
structure Env where
  modelFile : FileOutcome Classifier
  scalerFile : FileOutcome Scaler
  trainOutcome : Except String (Classifier × Scaler)

/-- `train_new_model`: synthesise and persist a new pair; any exception
is caught and answered with `create_fallback_model`. -/
noncomputable def train_new_model (env : Env) : Classifier × Scaler :=
  match env.trainOutcome with
  | .ok p => p
  | .error _ => create_fallback_model

/-- `load_model`: unpickle the two artifacts.  Only `FileNotFoundError`
is caught (answered by training a new model); an unpickling failure
propagates to the caller as an exception, modelled by `Except.error`.
When the model file is absent the scaler file is never opened. -/
noncomputable def load_model (env : Env) : Except String (Classifier × Scaler) :=
  match env.modelFile with
  | .absent => .ok (train_new_model env)
  | .corrupt m => .error m
  | .present model =>
    match env.scalerFile with
    | .absent => .ok (train_new_model env)
    | .corrupt m => .error m
    | .present scaler => .ok (model, scaler)

/-- The JSON object printed by the pipeline. -/
structure PredictionResult where
  prediction : ℤ
  probability : ℝ
  confidence : String
  error : Option String

/-- `predict_heart_disease`: load artifacts, vectorise, scale, predict.
Any exception raised inside (artifact unpickling failure, field coercion
failure) is caught and answered with the fallback result
`prediction 0, probability 0.1, confidence "fallback"` carrying the
exception text in `error`. -/
noncomputable def predict_heart_disease (env : Env) (input_data : ClinicalRecord) :
    PredictionResult :=
  match load_model env with
  | .error e => ⟨0, 0.1, "fallback", some e⟩
  | .ok (model, scaler) =>
    match preprocess_input input_data with
    | .error e => ⟨0, 0.1, "fallback", some e⟩
    | .ok feats =>
      let X : List (Fin 13 → ℝ) := [fun i => feats.getD i 0]
      let scaled := scaler.transform X
      ⟨(model.predict scaled).getD 0 0,
       ((model.predictProba scaled).getD 0 (0, 0)).2,
       if model.hasEstimators then "high" else "low",
       none⟩

/-- The CLI argument as `main` sees it: missing, present but not valid
JSON, or a parsed record. -/
inductive CliInput where
  | noArg
  | malformed (raw : String)
  | valid (record : ClinicalRecord)

/-- Observable outcome of one process run: exit status, the JSON objects
printed to stdout, and the diagnostic lines written to stderr. -/
structure MainOutcome where
  exitCode : ℕ
  stdout : List PredictionResult
  stderr : List String

/-- `main`: no argument and malformed JSON each write a diagnostic to
stderr and exit with status 1 printing nothing to stdout; a parsed
record is passed to `predict_heart_disease` and the result printed. -/
noncomputable def main (env : Env) (arg : CliInput) : MainOutcome :=
  match arg with
  | .noArg => ⟨1, [], ["Error no input data provided"]⟩
  | .malformed _ => ⟨1, [], ["Error invalid JSON input"]⟩
  | .valid r => ⟨0, [predict_heart_disease env r], []⟩

/-! ### Spec-side definitions (for the refinement claim C4)

These follow the specification's words (section 4.2) rather than the
source, and are compared with `preprocess_input` in `C4_vectorize`. -/

/-- The 13 field names in the order the specification fixes. -/
def specFields : List String :=
  ["age", "sex", "cp", "trestbps", "chol", "fbs", "restecg",
   "thalach", "exang", "oldpeak", "slope", "ca", "thal"]

/-- The per-field defaults the specification documents. -/
def specDefaults : String → ℝ
  | "age" => 50
  | "sex" => 0
  | "cp" => 0
  | "trestbps" => 120
  | "chol" => 200
  | "fbs" => 0
  | "restecg" => 0
  | "thalach" => 150
  | "exang" => 0
  | "oldpeak" => 0
  | "slope" => 0
  | "ca" => 0
  | "thal" => 0
  | _ => 0

/-- The value `preprocess_input` produces for one field on its success
path (present numeric value, else the source's default). -/
def presentOrDefault (data : ClinicalRecord) (f : String) : ℝ :=
  match lookupField data f with
  | some (.num x) => x
  | some (.badStr _) => 0
  | none => defaults f

/-- Spec-side value for one field; the non-coercible case is outside the
claim's hypothesis and is given the same placeholder as
`presentOrDefault` so the two functions can be compared pointwise. -/
def specPresentOrDefault (data : ClinicalRecord) (f : String) : ℝ :=
  match lookupField data f with
  | some (.num x) => x
  | some (.badStr _) => 0
  | none => specDefaults f

/-- The vectorizer as the specification describes it: the 13 fields in
the fixed order, present fields coerced, absent fields defaulted. -/
def specVectorize (data : ClinicalRecord) : List ℝ :=
  specFields.map (specPresentOrDefault data)

/-! ### Concrete environments and records used in the claims -/

/-- Environment in which both artifact files are missing and training
fails, so `load_model` answers with the rule-based fallback pair. -/
def envFallback : Env := ⟨.absent, .absent, .error ("training failed")⟩

/-- A scaler artifact that leaves its input unchanged. -/
def identityScaler : Scaler := ⟨fun X => X⟩

/-- A classifier artifact reporting certainty 1.0 for the positive
class on every row. -/
def overconfidentClassifier : Classifier :=
  ⟨fun X => X.map (fun _ => 1), fun X => X.map (fun _ => (0, 1)), true⟩

/-- Environment whose artifact files deserialise to
`overconfidentClassifier` and `identityScaler`. -/
def envOverconfident : Env :=
  ⟨.present overconfidentClassifier, .present identityScaler, .error ("unused")⟩

/-- A classifier artifact whose `predict` output (always 0) disagrees
with its `predict_proba` output (always probability 1). -/
def mismatchedClassifier : Classifier :=
  ⟨fun X => X.map (fun _ => 0), fun X => X.map (fun _ => (0, 1)), true⟩

/-- Environment whose artifact files deserialise to
`mismatchedClassifier` and `identityScaler`. -/
def envMismatched : Env :=
  ⟨.present mismatchedClassifier, .present identityScaler, .error ("unused")⟩

/-- Environment in which the model artifact file is present but fails to
unpickle. -/
def envCorrupt : Env :=
  ⟨.corrupt ("invalid load key"), .absent, .error ("unused")⟩

/-- The record of spec section 8: age 70, sex 1, cp 3, trestbps 160,
chol 300, thalach 90, all other fields absent. -/
def r6 : ClinicalRecord :=
  [("age", .num 70), ("sex", .num 1), ("cp", .num 3),
   ("trestbps", .num 160), ("chol", .num 300), ("thalach", .num 90)]

/-- A record with a non-coercible value for the `age` field. -/
def badRecord : ClinicalRecord := [("age", .badStr ("abc"))]

/-- A record is coercible when every present field holds a numeric
value. -/
def Coercible (data : ClinicalRecord) : Prop :=
  ∀ f v, lookupField data f = some v → ∃ x, v = PyValue.num x

/-! ### Helper lemmas -/

lemma coercible_nil : Coercible [] := by
  intro f v h
  simp [lookupField] at h

lemma coercible_of_allNum (data : ClinicalRecord)
    (h : ∀ p ∈ data, ∃ x, p.2 = PyValue.num x) : Coercible data := by
  induction data with
  | nil => exact coercible_nil
  | cons p rest ih =>
    intro f v hv
    obtain ⟨k, w⟩ := p
    rw [lookupField] at hv
    by_cases hk : k = f
    · rw [if_pos hk] at hv
      obtain ⟨x, hx⟩ := h (k, w) (List.mem_cons_self _ _)
      injection hv with h2
      exact ⟨x, h2 ▸ hx⟩
    · rw [if_neg hk] at hv
      exact ih (fun q hq => h q (List.mem_cons_of_mem _ hq)) f v hv

lemma coercible_r6 : Coercible r6 := by
  apply coercible_of_allNum
  intro p hp
  simp only [r6, List.mem_cons, List.not_mem_nil, or_false] at hp
  rcases hp with rfl | rfl | rfl | rfl | rfl | rfl <;> exact ⟨_, rfl⟩

lemma buildFeatures_ok (data : ClinicalRecord) (h : Coercible data)
    (fs : List String) : buildFeatures data fs = .ok (fs.map (presentOrDefault data)) := by
  induction fs with
  | nil => rfl
  | cons f fs ih =>
    simp only [buildFeatures, ih, List.map_cons]
    cases hlf : lookupField data f with
    | none => simp [featureValue, hlf, presentOrDefault]
    | some v =>
      obtain ⟨x, rfl⟩ := h f v hlf
      simp [featureValue, hlf, presentOrDefault, coerceFloat]

lemma preprocess_ok (data : ClinicalRecord) (h : Coercible data) :
    preprocess_input data = .ok (requiredFeatures.map (presentOrDefault data)) :=
  buildFeatures_ok data h requiredFeatures

lemma buildFeatures_error (data : ClinicalRecord) (fs : List String)
    (h : ∃ f ∈ fs, ∃ t, lookupField data f = some (PyValue.badStr t)) :
    ∃ e, buildFeatures data fs = .error e := by
  induction fs with
  | nil =>
    obtain ⟨f, hf, _⟩ := h
    exact absurd hf (List.not_mem_nil f)
  | cons g fs ih =>
    obtain ⟨f, hf, t, ht⟩ := h
    cases hfv : featureValue data g with
    | error e => exact ⟨e, by simp [buildFeatures, hfv]⟩
    | ok x =>
      have hfs : f ∈ fs := by
        rcases List.mem_cons.mp hf with rfl | h2
        · exfalso
          simp [featureValue, ht, coerceFloat] at hfv
        · exact h2
      obtain ⟨e, he⟩ := ih ⟨f, hfs, t, ht⟩
      exact ⟨e, by simp [buildFeatures, hfv, he]⟩

lemma colMean_single (v : Fin 13 → ℝ) (j : Fin 13) : colMean [v] j = v j := by
  simp [colMean]

lemma transform_single (v : Fin 13 → ℝ) :
    FallbackScaler.transform [v] = [fun _ => 0] := by
  unfold FallbackScaler.transform
  simp only [List.map_cons, List.map_nil]
  congr 1
  funext j
  rw [colMean_single, sub_self, zero_div]

lemma riskScore_zero : riskScore (fun _ => 0) = 0.2 := by
  unfold riskScore
  norm_num

lemma riskScore_nonneg (f : Fin 13 → ℝ) : 0 ≤ riskScore f := by
  unfold riskScore
  repeat' apply add_nonneg
  all_goals split <;> norm_num

lemma proba_zero : FallbackModel.predict_proba [fun _ => 0] = [(0.8, 0.2)] := by
  unfold FallbackModel.predict_proba
  rw [List.map_cons, List.map_nil, riskScore_zero]
  norm_num

lemma predictZero : FallbackModel.predict [fun _ => 0] = [0] := by
  unfold FallbackModel.predict
  rw [proba_zero, List.map_cons, List.map_nil]
  norm_num

lemma predict_result_ok (env : Env) (m : Classifier) (s : Scaler)
    (data : ClinicalRecord) (L : List ℝ)
    (h1 : load_model env = .ok (m, s)) (h2 : preprocess_input data = .ok L) :
    predict_heart_disease env data =
      ⟨(m.predict (s.transform [fun i => L.getD i 0])).getD 0 0,
       ((m.predictProba (s.transform [fun i => L.getD i 0])).getD 0 (0, 0)).2,
       if m.hasEstimators then "high" else "low", none⟩ := by
  unfold predict_heart_disease
  rw [h1, h2]

lemma predict_result_load_error (env : Env) (data : ClinicalRecord) (e : String)
    (h : load_model env = .error e) :
    predict_heart_disease env data = ⟨0, 0.1, "fallback", some e⟩ := by
  unfold predict_heart_disease
  rw [h]

lemma predict_result_preprocess_error (env : Env) (m : Classifier) (s : Scaler)
    (data : ClinicalRecord) (e : String) (h1 : load_model env = .ok (m, s))
    (h2 : preprocess_input data = .error e) :
    predict_heart_disease env data = ⟨0, 0.1, "fallback", some e⟩ := by
  unfold predict_heart_disease
  rw [h1, h2]

lemma load_envFallback : load_model envFallback = .ok create_fallback_model := rfl

lemma predict_fallback (env : Env) (data : ClinicalRecord)
    (h1 : load_model env = .ok create_fallback_model) (h2 : Coercible data) :
    predict_heart_disease env data = ⟨0, 0.2, "low", none⟩ := by
  have hpre := preprocess_ok data h2
  have hres := predict_result_ok env create_fallback_model.1 create_fallback_model.2
      data (requiredFeatures.map (presentOrDefault data)) (by rw [h1]) hpre
  rw [hres]
  have ht : create_fallback_model.2.transform = FallbackScaler.transform := rfl
  have hp : create_fallback_model.1.predict = FallbackModel.predict := rfl
  have hpp : create_fallback_model.1.predictProba = FallbackModel.predict_proba := rfl
  have hE : create_fallback_model.1.hasEstimators = false := rfl
  rw [ht, hp, hpp, hE, transform_single, predictZero, proba_zero]
  norm_num

lemma predict_r6 : predict_heart_disease envFallback r6 = ⟨0, 0.2, "low", none⟩ :=
  predict_fallback envFallback r6 rfl coercible_r6

lemma load_envOverconfident :
    load_model envOverconfident = .ok (overconfidentClassifier, identityScaler) := rfl

lemma predict_overconfident :
    predict_heart_disease envOverconfident [] = ⟨1, 1, "high", none⟩ := by
  have hres := predict_result_ok envOverconfident overconfidentClassifier identityScaler
      [] (requiredFeatures.map (presentOrDefault [])) load_envOverconfident
      (preprocess_ok [] coercible_nil)
  rw [hres]
  simp [overconfidentClassifier, identityScaler]

lemma load_envMismatched :
    load_model envMismatched = .ok (mismatchedClassifier, identityScaler) := rfl

lemma predict_mismatched :
    predict_heart_disease envMismatched [] = ⟨0, 1, "high", none⟩ := by
  have hres := predict_result_ok envMismatched mismatchedClassifier identityScaler
      [] (requiredFeatures.map (presentOrDefault [])) load_envMismatched
      (preprocess_ok [] coercible_nil)
  rw [hres]
  simp [mismatchedClassifier, identityScaler]

lemma defaults_eq_specDefaults : ∀ f ∈ specFields, defaults f = specDefaults f := by
  intro f hf
  fin_cases hf <;> rfl

lemma clamp_gt_half (p : ℝ) : min (max p 0.05) 0.95 > 0.5 ↔ p > 0.5 := by
  rw [gt_iff_lt, lt_min_iff, lt_max_iff]
  norm_num

lemma fallback_predict_thresholds (X : List (Fin 13 → ℝ)) (i : ℕ) :
    (FallbackModel.predict X).getD i 0 =
      if ((FallbackModel.predict_proba X).getD i (0, 0)).2 > 0.5 then 1 else 0 := by
  unfold FallbackModel.predict
  rw [List.getD_eq_getElem?_getD, List.getD_eq_getElem?_getD, List.getElem?_map]
  cases h : (FallbackModel.predict_proba X)[i]? with
  | none => norm_num
  | some pr => simp

/-! ### Claim theorems -/

/-- Claim C1, counterexample.  The claim says the probability returned on
the successful path is always clamped into [0.05, 0.95].  No clamp exists
in `predict_heart_disease`: with artifact files deserialising to a
classifier whose `predict_proba` reports 1.0 for the positive class, the
pipeline succeeds (`error` is `none`) and reports probability 1, outside
the claimed range. -/
theorem C1_counterexample :
    (predict_heart_disease envOverconfident []).error = none ∧
    (predict_heart_disease envOverconfident []).probability = 1 ∧
    0.95 < (predict_heart_disease envOverconfident []).probability := by
  rw [predict_overconfident]
  norm_num

/-- Claim C1, amended.  The pipeline applies no clamp and reports the
classifier's raw positive-class probability unchanged; with the
repository's rule-based fallback pair in use, that raw probability is
always exactly 0.2 (the single-row fallback scaler zeroes every feature),
which happens to lie inside [0.05, 0.95]. -/
theorem C1_amended (env : Env) (data : ClinicalRecord)
    (h1 : load_model env = Except.ok create_fallback_model) (h2 : Coercible data) :
    (predict_heart_disease env data).probability = 0.2 ∧
    0.05 ≤ (predict_heart_disease env data).probability ∧
    (predict_heart_disease env data).probability ≤ 0.95 := by
  rw [predict_fallback env data h1 h2]
  norm_num

/-- Witness for C1_amended at the fallback environment and the empty
record. -/
theorem C1_witness :
    load_model envFallback = Except.ok create_fallback_model ∧ Coercible [] ∧
    ((predict_heart_disease envFallback []).probability = 0.2 ∧
     0.05 ≤ (predict_heart_disease envFallback []).probability ∧
     (predict_heart_disease envFallback []).probability ≤ 0.95) :=
  ⟨rfl, coercible_nil, C1_amended envFallback [] rfl coercible_nil⟩

/-- Claim C2, counterexample.  The claim says confidence is "fallback"
whenever the rule-based pair from `create_fallback_model` is the model in
use.  In the environment where both artifact files are missing and
training fails, `load_model` returns exactly that pair, yet the success
path reports confidence "low" (the code only distinguishes
`hasattr(model, estimators attribute)`). -/
theorem C2_counterexample :
    load_model envFallback = Except.ok create_fallback_model ∧
    (predict_heart_disease envFallback []).confidence = "low" ∧
    (predict_heart_disease envFallback []).confidence ≠ "fallback" := by
  have h := predict_fallback envFallback [] rfl coercible_nil
  refine ⟨rfl, ?_, ?_⟩
  · rw [h]
  · rw [h]
    decide

/-- Claim C2, amended.  On the successful path the confidence string is
"high" exactly when the loaded classifier has an `estimators_` attribute
(a trained ensemble) and "low" otherwise — including when the rule-based
fallback pair is in use, since `create_fallback_model`'s classifier has
no such attribute; "fallback" is reported only on the exception path. -/
theorem C2_amended (env : Env) (m : Classifier) (s : Scaler) (data : ClinicalRecord)
    (h1 : load_model env = Except.ok (m, s)) (h2 : Coercible data) :
    (predict_heart_disease env data).confidence =
      (if m.hasEstimators then "high" else "low") ∧
    create_fallback_model.1.hasEstimators = false := by
  rw [predict_result_ok env m s data (requiredFeatures.map (presentOrDefault data))
      h1 (preprocess_ok data h2)]
  exact ⟨rfl, rfl⟩

/-- Witness for C2_amended at the fallback environment and the empty
record. -/
theorem C2_witness :
    load_model envFallback =
      Except.ok (create_fallback_model.1, create_fallback_model.2) ∧
    Coercible [] ∧
    ((predict_heart_disease envFallback []).confidence =
      (if create_fallback_model.1.hasEstimators then "high" else "low") ∧
     create_fallback_model.1.hasEstimators = false) :=
  ⟨rfl, coercible_nil,
    C2_amended envFallback create_fallback_model.1 create_fallback_model.2 [] rfl
      coercible_nil⟩

/-- Claim C3, confirmed.  When the artifacts load and the record holds a
non-coercible value for one of the 13 clinical fields, the coercion
failure is not replaced by a default: `preprocess_input` fails with the
coercion error, and the final result carries that very message in its
`error` field together with probability 0.1, confidence "fallback" and
prediction 0. -/
theorem C3_coercion_error (env : Env) (m : Classifier) (s : Scaler)
    (data : ClinicalRecord) (h1 : load_model env = Except.ok (m, s))
    (h2 : ∃ f ∈ requiredFeatures, ∃ t, lookupField data f = some (PyValue.badStr t)) :
    ∃ e, preprocess_input data = Except.error e ∧
      predict_heart_disease env data = ⟨0, 0.1, "fallback", some e⟩ := by
  obtain ⟨e, he⟩ := buildFeatures_error data requiredFeatures h2
  exact ⟨e, he, predict_result_preprocess_error env m s data e h1 he⟩

/-- Witness for C3_coercion_error: the record mapping `age` to a
non-numeric string. -/
theorem C3_witness :
    load_model envFallback =
      Except.ok (create_fallback_model.1, create_fallback_model.2) ∧
    (∃ f ∈ requiredFeatures, ∃ t, lookupField badRecord f = some (PyValue.badStr t)) ∧
    ∃ e, preprocess_input badRecord = Except.error e ∧
      predict_heart_disease envFallback badRecord = ⟨0, 0.1, "fallback", some e⟩ := by
  have hmem : ∃ f ∈ requiredFeatures, ∃ t,
      lookupField badRecord f = some (PyValue.badStr t) :=
    ⟨"age", by simp [requiredFeatures], "abc", rfl⟩
  exact ⟨rfl, hmem,
    C3_coercion_error envFallback create_fallback_model.1 create_fallback_model.2
      badRecord rfl hmem⟩

/-- Claim C4, confirmed.  For every record whose present fields are
numerically coercible, `preprocess_input` succeeds and returns exactly
the vector the specification describes: 13 floats in the fixed field
order, present fields coerced and absent fields replaced by the
documented defaults. -/
theorem C4_vectorize (data : ClinicalRecord) (h : Coercible data) :
    preprocess_input data = Except.ok (specVectorize data) ∧
    (specVectorize data).length = 13 := by
  constructor
  · rw [preprocess_ok data h]
    unfold specVectorize
    have hreq : requiredFeatures = specFields := rfl
    rw [hreq]
    refine congrArg Except.ok ?_
    apply List.map_congr_left
    intro f hf
    cases hlf : lookupField data f with
    | none =>
      simp [presentOrDefault, specPresentOrDefault, hlf, defaults_eq_specDefaults f hf]
    | some v => cases v <;> simp [presentOrDefault, specPresentOrDefault, hlf]

  · simp [specVectorize, specFields]

/-- Witness for C4_vectorize at the section-8 record. -/
theorem C4_witness :
    Coercible r6 ∧
    (preprocess_input r6 = Except.ok (specVectorize r6) ∧
     (specVectorize r6).length = 13) :=
  ⟨coercible_r6, C4_vectorize r6 coercible_r6⟩

/-- Claim C5, counterexample.  The claim says that when an artifact fails
to deserialize, `load_model` still returns a classifier/scaler pair and
the caller never observes an artifact-loading failure.  `load_model` only
catches `FileNotFoundError`: with a model file that fails to unpickle it
propagates the exception, and the caller sees the loading failure in the
result's `error` field. -/
theorem C5_counterexample :
    load_model envCorrupt = Except.error ("invalid load key") ∧
    (predict_heart_disease envCorrupt []).error = some ("invalid load key") := by
  refine ⟨rfl, ?_⟩
  rw [predict_result_load_error envCorrupt [] ("invalid load key") rfl]

/-- Claim C5, amended.  Whenever either artifact file is absent,
`load_model` degrades gracefully, returning the pair from
`train_new_model` (a newly synthesized pair, or the rule-based fallback
pair when training fails) and the caller sees no failure; but whenever
either artifact file fails to deserialize (and is reached: the scaler
file is only opened when the model file is present), the exception
propagates out of `load_model`, and `predict_heart_disease` converts it
into the fallback error result, so a prediction result is still produced
but it does record the artifact-loading failure. -/
theorem C5_amended (env : Env) (data : ClinicalRecord)
    (h : env.modelFile = FileOutcome.absent ∨
      (∃ m, env.modelFile = FileOutcome.corrupt m) ∨
      env.scalerFile = FileOutcome.absent ∨
      (∃ m, env.scalerFile = FileOutcome.corrupt m)) :
    (load_model env = Except.ok (train_new_model env) ∧
      (train_new_model env = create_fallback_model ∨
        ∃ p, env.trainOutcome = Except.ok p ∧ train_new_model env = p)) ∨
    (∃ msg, (env.modelFile = FileOutcome.corrupt msg ∨
        env.scalerFile = FileOutcome.corrupt msg) ∧
      load_model env = Except.error msg ∧
      predict_heart_disease env data = ⟨0, 0.1, "fallback", some msg⟩) := by
  have htrain : train_new_model env = create_fallback_model ∨
      ∃ p, env.trainOutcome = Except.ok p ∧ train_new_model env = p := by
    unfold train_new_model
    cases ht : env.trainOutcome with
    | ok p => right; exact ⟨p, rfl, rfl⟩
    | error e => left; rfl
  cases hm : env.modelFile with
  | absent =>
    left
    refine ⟨?_, htrain⟩
    unfold load_model
    rw [hm]
  | corrupt m =>
    right
    have hl : load_model env = Except.error m := by
      unfold load_model
      rw [hm]
    exact ⟨m, Or.inl rfl, hl, predict_result_load_error env data m hl⟩
  | present c =>
    cases hs : env.scalerFile with
    | absent =>
      left
      refine ⟨?_, htrain⟩
      unfold load_model
      rw [hm, hs]
    | corrupt m =>
      right
      have hl : load_model env = Except.error m := by
        unfold load_model
        rw [hm, hs]
      exact ⟨m, Or.inr rfl, hl, predict_result_load_error env data m hl⟩
    | present s =>
      exfalso
      rcases h with h | ⟨m, h⟩ | h | ⟨m, h⟩
      · rw [hm] at h
        exact FileOutcome.noConfusion h
      · rw [hm] at h
        exact FileOutcome.noConfusion h
      · rw [hs] at h
        exact FileOutcome.noConfusion h
      · rw [hs] at h
        exact FileOutcome.noConfusion h

/-- Witness for C5_amended at the environment with both artifact files
absent. -/
theorem C5_witness :
    (envFallback.modelFile = FileOutcome.absent ∨
      (∃ m, envFallback.modelFile = FileOutcome.corrupt m) ∨
      envFallback.scalerFile = FileOutcome.absent ∨
      (∃ m, envFallback.scalerFile = FileOutcome.corrupt m)) ∧
    ((load_model envFallback = Except.ok (train_new_model envFallback) ∧
      (train_new_model envFallback = create_fallback_model ∨
        ∃ p, envFallback.trainOutcome = Except.ok p ∧ train_new_model envFallback = p)) ∨
     (∃ msg, (envFallback.modelFile = FileOutcome.corrupt msg ∨
        envFallback.scalerFile = FileOutcome.corrupt msg) ∧
      load_model envFallback = Except.error msg ∧
      predict_heart_disease envFallback [] = ⟨0, 0.1, "fallback", some msg⟩)) :=
  ⟨Or.inl rfl, C5_amended envFallback [] (Or.inl rfl)⟩

/-- Claim C6, counterexample.  With the rule-based fallback pair in use,
the record age 70, sex 1, cp 3, trestbps 160, chol 300, thalach 90 yields
confidence "low" (not "fallback") and probability 0.2 (not at least 0.5):
the single-row fallback scaler zeroes every feature before the rules are
applied, so only the resting-heart-rate rule fires. -/
theorem C6_counterexample :
    load_model envFallback = Except.ok create_fallback_model ∧
    (predict_heart_disease envFallback r6).probability = 0.2 ∧
    (predict_heart_disease envFallback r6).confidence = "low" ∧
    ¬((predict_heart_disease envFallback r6).confidence = "fallback" ∧
      0.5 ≤ (predict_heart_disease envFallback r6).probability) := by
  refine ⟨rfl, ?_, ?_, ?_⟩
  · rw [predict_r6]
  · rw [predict_r6]
  · rw [predict_r6]
    rintro ⟨-, hp⟩
    norm_num at hp

/-- Claim C6, amended.  With the rule-based fallback pair in use, running
the pipeline on that record yields prediction 0, probability exactly 0.2
and confidence "low". -/
theorem C6_amended :
    load_model envFallback = Except.ok create_fallback_model ∧
    predict_heart_disease envFallback r6 = ⟨0, 0.2, "low", none⟩ :=
  ⟨rfl, predict_r6⟩

/-- Claim C7, counterexample.  The label is produced by the loaded
classifier's own `predict` method, not by thresholding the reported
probability: with artifact files deserialising to a classifier whose
`predict` answers 0 while its `predict_proba` reports probability 1, the
pipeline succeeds with label 0 although the clamped probability exceeds
0.5. -/
theorem C7_counterexample :
    (predict_heart_disease envMismatched []).prediction = 0 ∧
    min (max (predict_heart_disease envMismatched []).probability 0.05) 0.95 > 0.5 ∧
    ¬((predict_heart_disease envMismatched []).prediction = 1 ↔
      min (max (predict_heart_disease envMismatched []).probability 0.05) 0.95 > 0.5) := by
  rw [predict_mismatched]
  norm_num

/-- Claim C7, amended.  The returned label equals the loaded classifier's
`predict` output; for every loaded classifier that derives its
predictions by thresholding its own positive-class probability at
strictly 0.5 — as the repository's fallback classifier does — the
returned label equals 1 iff the clamped probability exceeds 0.5 (a
clamped probability of exactly 0.5 yields label 0). -/
theorem C7_label_threshold (env : Env) (m : Classifier) (s : Scaler)
    (data : ClinicalRecord) (h1 : load_model env = Except.ok (m, s))
    (h2 : ∀ X i, (m.predict X).getD i 0 =
      if ((m.predictProba X).getD i (0, 0)).2 > 0.5 then 1 else 0)
    (h3 : Coercible data) :
    ((predict_heart_disease env data).prediction = 1 ↔
      min (max (predict_heart_disease env data).probability 0.05) 0.95 > 0.5) := by
  simp only [predict_result_ok env m s data (requiredFeatures.map (presentOrDefault data))
    h1 (preprocess_ok data h3)]
  rw [h2, clamp_gt_half]
  by_cases hp : ((m.predictProba (s.transform
      [fun i => (requiredFeatures.map (presentOrDefault data)).getD i 0])).getD 0 (0, 0)).2 > 0.5
  · simp [hp]
  · simp [hp]

/-- Witness for C7_label_threshold with the fallback pair (whose
`predict` provably thresholds its `predict_proba`) on the section-8
record. -/
theorem C7_witness :
    load_model envFallback =
      Except.ok (create_fallback_model.1, create_fallback_model.2) ∧
    (∀ X i, (create_fallback_model.1.predict X).getD i 0 =
      if ((create_fallback_model.1.predictProba X).getD i (0, 0)).2 > 0.5 then 1 else 0) ∧
    Coercible r6 ∧
    ((predict_heart_disease envFallback r6).prediction = 1 ↔
      min (max (predict_heart_disease envFallback r6).probability 0.05) 0.95 > 0.5) :=
  ⟨rfl, fun X i => fallback_predict_thresholds X i, coercible_r6,
    C7_label_threshold envFallback create_fallback_model.1 create_fallback_model.2 r6
      rfl (fun X i => fallback_predict_thresholds X i) coercible_r6⟩

/-- Claim C8, confirmed.  With no CLI argument the program exits with
status 1, prints nothing to stdout and writes a diagnostic to stderr;
a malformed-JSON argument is handled identically (same exit status, same
empty stdout, one stderr diagnostic). -/
theorem C8_cli_errors (env : Env) (raw : String) :
    (main env CliInput.noArg).exitCode = 1 ∧
    (main env CliInput.noArg).stdout = [] ∧
    (main env CliInput.noArg).stderr ≠ [] ∧
    (main env (CliInput.malformed raw)).exitCode = (main env CliInput.noArg).exitCode ∧
    (main env (CliInput.malformed raw)).stdout = (main env CliInput.noArg).stdout ∧
    (main env (CliInput.malformed raw)).stderr.length =
      (main env CliInput.noArg).stderr.length := by
  refine ⟨rfl, rfl, ?_, rfl, rfl, rfl⟩
  simp [main]

/-- Claim C9, confirmed.  On every single-row input matrix,
`FallbackScaler.transform` returns the all-zero row (the one-row batch's
per-column mean equals the row itself), so single-record fallback
inference is independent of the feature values entering the scaler. -/
theorem C9_single_row_zero (v : Fin 13 → ℝ) :
    FallbackScaler.transform [v] = [fun _ => 0] ∧
    ∀ w : Fin 13 → ℝ, FallbackScaler.transform [v] = FallbackScaler.transform [w] := by
  refine ⟨transform_single v, fun w => ?_⟩
  rw [transform_single v, transform_single w]

/-- Claim C10, confirmed.  Every row of `FallbackModel.predict_proba` is
the pair (1 - p, p) with p = min(riskScore, 0.9), so the two entries sum
to 1 and the positive-class entry lies in [0, 0.9]; and
`FallbackModel.predict` thresholds the positive-class column at strictly
greater than 0.5. -/
theorem C10_proba_contract (X : List (Fin 13 → ℝ)) (i : ℕ) (h : i < X.length) :
    ((FallbackModel.predict_proba X).getD i (0, 0)).1 +
      ((FallbackModel.predict_proba X).getD i (0, 0)).2 = 1 ∧
    0 ≤ ((FallbackModel.predict_proba X).getD i (0, 0)).2 ∧
    ((FallbackModel.predict_proba X).getD i (0, 0)).2 ≤ 0.9 ∧
    ((FallbackModel.predict_proba X).getD i (0, 0)).2 =
      min (riskScore (X.getD i (fun _ => 0))) 0.9 ∧
    (FallbackModel.predict X).getD i 0 =
      (if ((FallbackModel.predict_proba X).getD i (0, 0)).2 > 0.5 then 1 else 0) := by
  have hpr : (FallbackModel.predict_proba X).getD i (0, 0) =
      (1 - min (riskScore (X.getD i (fun _ => 0))) 0.9,
        min (riskScore (X.getD i (fun _ => 0))) 0.9) := by
    unfold FallbackModel.predict_proba
    rw [List.getD_eq_getElem?_getD, List.getElem?_map, List.getElem?_eq_getElem h,
      List.getD_eq_getElem?_getD, List.getElem?_eq_getElem h]
    simp
  refine ⟨?_, ?_, ?_, ?_, fallback_predict_thresholds X i⟩
  · rw [hpr]
    ring
  · rw [hpr]
    exact le_min (riskScore_nonneg _) (by norm_num)
  · rw [hpr]
    exact min_le_right _ _
  · rw [hpr]

/-- Witness for C10_proba_contract at the one-row zero matrix. -/
theorem C10_witness :
    0 < ([fun _ => 0] : List (Fin 13 → ℝ)).length ∧
    (((FallbackModel.predict_proba [fun _ => 0]).getD 0 (0, 0)).1 +
      ((FallbackModel.predict_proba [fun _ => 0]).getD 0 (0, 0)).2 = 1 ∧
     0 ≤ ((FallbackModel.predict_proba [fun _ => 0]).getD 0 (0, 0)).2 ∧
     ((FallbackModel.predict_proba [fun _ => 0]).getD 0 (0, 0)).2 ≤ 0.9 ∧
     ((FallbackModel.predict_proba [fun _ => 0]).getD 0 (0, 0)).2 =
       min (riskScore (([fun _ => 0] : List (Fin 13 → ℝ)).getD 0 (fun _ => 0))) 0.9 ∧
     (FallbackModel.predict [fun _ => 0]).getD 0 0 =
       (if ((FallbackModel.predict_proba [fun _ => 0]).getD 0 (0, 0)).2 > 0.5
        then 1 else 0)) :=
  ⟨by simp, C10_proba_contract [fun _ => 0] 0 (by simp)⟩

end HeartGuard
